import Mathlib

/-!
Verification of the lumina-web-example repository: a shallow embedding of the
pure helper functions and control-flow skeletons of its React test pages
(public PSWAP fill page, private PSWAP fill page, note-lookup page, signing
page) together with its RPC helper module, and proofs of the behavioural
claims made by the specification.

Conventions used throughout:
* JavaScript `BigInt` values are embedded as `Int` (the demo only ever uses
  nonnegative values, but `BigInt` itself is signed arbitrary precision).
* Bit manipulations on faucet-id values (which are 64-bit field
  elements returned by `.asInt()`) are embedded as `Nat` together with the
  same shift/mask operators the source uses.
* SDK objects that the repository merely constructs and passes around
  (`NoteTag`, `AccountId`, RPC notes) are embedded as records carrying the
  data the repository itself supplies; SDK constructors become record
  constructors, which models the fact that they are deterministic functions
  of their arguments.
* Stateful React code (`setState` updaters, try/catch wrappers, polling
  loops) is embedded by explicit state passing.
-/

/-! ## Constants of the two fill pages (`app/partial/page.tsx` and the
private-fill page): offered / requested / fill amounts. -/

def OFFERED_AMOUNT : Int := 1000

def REQUESTED_AMOUNT : Int := 1000

def FILL_AMOUNT : Int := 250

/-! ## Fill calculation (phase 6 of both fill pages)

Source:
`const takerReceives = (FILL_AMOUNT * OFFERED_AMOUNT) / REQUESTED_AMOUNT;`
`const leftoverOffered = OFFERED_AMOUNT - takerReceives;`
`const leftoverRequested = REQUESTED_AMOUNT - FILL_AMOUNT;`
generalised over the fill amount exactly as the claim quantifies it. -/

def takerReceives (fillAmount offeredAmount requestedAmount : Int) : Int :=
  fillAmount * offeredAmount / requestedAmount

def leftoverOffered (fillAmount offeredAmount requestedAmount : Int) : Int :=
  offeredAmount - takerReceives fillAmount offeredAmount requestedAmount

def leftoverRequested (fillAmount requestedAmount : Int) : Int :=
  requestedAmount - fillAmount

/-! ## Account ids and note tags

`AccountId.prefix().asInt()` and `.suffix().asInt()` return the two 64-bit
field elements of a Miden account id; the pages only ever use those two
numbers, so an account id is embedded as that pair. -/

structure AccountId where
  prefixVal : Nat
  suffixVal : Nat
  deriving DecidableEq

inductive NoteType
  | Public
  | Private
  deriving DecidableEq

/-- A note tag as the pages build it: the SDK constructors
`NoteTag.forPublicUseCase(useCaseId, payload, mode)` and
`NoteTag.forLocalUseCase(useCaseId, payload)` are deterministic functions of
the use-case id and the 16-bit payload; the record remembers which
constructor was used. -/
structure NoteTag where
  useCaseId : Nat
  tagPayload : Nat
  publicUseCase : Bool
  deriving DecidableEq

def NoteTag.forPublicUseCase (useCaseId payload : Nat) : NoteTag :=
  ⟨useCaseId, payload, true⟩

def NoteTag.forLocalUseCase (useCaseId payload : Nat) : NoteTag :=
  ⟨useCaseId, payload, false⟩

/-- `buildSwapTag` from both fill pages:
`offeredTag = Number((offeredPrefix >> 56n) & 0xFFn)`,
`requestedTag = Number((requestedPrefix >> 56n) & 0xFFn)`,
`payload = (offeredTag << 8) | requestedTag`, then
`forPublicUseCase(0, payload, newLocal())` for public note types and
`forLocalUseCase(0, payload)` otherwise. -/
def buildSwapTag (noteType : NoteType) (offeredFaucetId requestedFaucetId : AccountId) :
    NoteTag :=
  let SWAP_USE_CASE_ID := 0
  let offeredTag := (offeredFaucetId.prefixVal >>> 56) &&& 255
  let requestedTag := (requestedFaucetId.prefixVal >>> 56) &&& 255
  let payload := (offeredTag <<< 8) ||| requestedTag
  match noteType with
  | .Public => NoteTag.forPublicUseCase SWAP_USE_CASE_ID payload
  | .Private => NoteTag.forLocalUseCase SWAP_USE_CASE_ID payload

/-- Call site at SWAPP-note creation on the public fill page:
`buildSwapTag(NoteType.Public, toAccountId(goldFaucetIdHex), toAccountId(silverFaucetIdHex))`. -/
def swappTagPublicPage (goldFaucetId silverFaucetId : AccountId) : NoteTag :=
  buildSwapTag .Public goldFaucetId silverFaucetId

/-- Call site at fill time on the public fill page (the leftover tag is
recomputed from the same two faucet ids). -/
def leftoverSwappTagPublicPage (goldFaucetId silverFaucetId : AccountId) : NoteTag :=
  buildSwapTag .Public goldFaucetId silverFaucetId

/-- Call site at SWAPP-note creation on the private fill page. -/
def swappTagPrivatePage (goldFaucetId silverFaucetId : AccountId) : NoteTag :=
  buildSwapTag .Private goldFaucetId silverFaucetId

/-- Call site at fill time on the private fill page. -/
def leftoverSwappTagPrivatePage (goldFaucetId silverFaucetId : AccountId) : NoteTag :=
  buildSwapTag .Private goldFaucetId silverFaucetId

/-! ## Note input arrays (phase 5 of both fill pages) -/

/-- `NOTE_TYPE.PRIVATE` from `lib/masm/pswap-private.ts`. -/
def NOTE_TYPE_PRIVATE : Nat := 0

/-- `NOTE_TYPE.PUBLIC` from `lib/masm/pswap-private.ts`. -/
def NOTE_TYPE_PUBLIC : Nat := 1

/-- `noteInputsArray` from the public fill page: 14 felts, transcribed
element by element (the literal zeros at indices 1, 6, 7, 10 and 11 are the
reserved slots, the zero at index 8 is the initial swap count and the zero
at index 9 means no expiration block). -/
def noteInputsArray (requestedAmount reqSuffix reqPrefix swappTagU32 p2idTagU32
    creatorPrefix creatorSuffix : Nat) : List Nat :=
  [requestedAmount, 0, reqSuffix, reqPrefix, swappTagU32, p2idTagU32,
   0, 0, 0, 0, 0, 0, creatorPrefix, creatorSuffix]

/-- `noteInputsArray` from the private fill page: the same 14 slots plus
`new Felt(NOTE_TYPE.PRIVATE)` at index 14. -/
def noteInputsArrayPrivate (requestedAmount reqSuffix reqPrefix swappTagU32 p2idTagU32
    creatorPrefix creatorSuffix : Nat) : List Nat :=
  [requestedAmount, 0, reqSuffix, reqPrefix, swappTagU32, p2idTagU32,
   0, 0, 0, 0, 0, 0, creatorPrefix, creatorSuffix, NOTE_TYPE_PRIVATE]

/-! ## Timestamps and the `log` helper (identical on all four pages)

`new Date().toISOString().slice(11, 19)` is the zero-padded `HH:MM:SS`
portion of the ISO timestamp; a time of day is embedded as its three
components and the slice as their two-digit rendering. -/

structure TimeOfDay where
  hour : Nat
  minute : Nat
  second : Nat
  deriving DecidableEq

def pad2 (n : Nat) : String :=
  if n < 10 then "0" ++ toString n else toString n

def timestampHHMMSS (t : TimeOfDay) : String :=
  pad2 t.hour ++ ":" ++ pad2 t.minute ++ ":" ++ pad2 t.second

/-- One rendered log line: `` `[${timestamp}] ${message}` ``. -/
def logLine (t : TimeOfDay) (message : String) : String :=
  "[" ++ timestampHHMMSS t ++ "] " ++ message

/-! ## TestState of the two fill pages -/

inductive TestPhase
  | idle
  | init
  | createFaucets
  | createWallets
  | mintTokens
  | createSwapp
  | fillSwapp
  | consumeP2id
  | verify
  | done
  | error
  deriving DecidableEq

/-- The `TestState` interface of the fill pages. JavaScript objects can
carry properties beyond the declared interface (a spread update
`{...prev, someNewKey: v}` simply adds `someNewKey`); `extraProps` records
such undeclared properties. -/
structure TestState where
  phase : TestPhase
  logs : List String
  goldFaucetId : Option String
  silverFaucetId : Option String
  makerId : Option String
  takerId : Option String
  swappNoteId : Option String
  p2idNoteId : Option String
  leftoverNoteId : Option String
  extraProps : List (String × String)
  deriving DecidableEq

/-- The `useState` initial value of the fill pages. -/
def idleTestState : TestState :=
  ⟨.idle, [], none, none, none, none, none, none, none, []⟩

/-- The full replacement state installed by the first `setState` of
`runTest`: phase `"init"`, empty logs, every identifier `null`. -/
def initTestState : TestState :=
  ⟨.init, [], none, none, none, none, none, none, none, []⟩

/-- The first statement of `runTest` on both fill pages: `setState({...})`
with the literal initial object, replacing the entire previous state. -/
def runTestReset (_prev : TestState) : TestState :=
  initTestState

/-- The `log` callback of the fill pages:
`setState((prev) => ({ ...prev, logs: [...prev.logs, line] }))`. -/
def log (t : TimeOfDay) (message : String) (prev : TestState) : TestState :=
  { prev with logs := prev.logs ++ [logLine t message] }

/-- JavaScript property write on a plain object (used for the undeclared
properties a spread update introduces): overwrite if present, add if not. -/
def setProp (key value : String) (props : List (String × String)) :
    List (String × String) :=
  (props.filter fun kv => kv.1 ≠ key) ++ [(key, value)]

def getProp (key : String) (props : List (String × String)) : Option String :=
  (props.find? fun kv => kv.1 == key).map (fun kv => kv.2)

/-- Public fill page, phase 2:
`setState((prev) => ({ ...prev, goldFaucetIdHex: goldFaucetIdHex }))` —
the value lands on the undeclared key `goldFaucetIdHex`, not on the
declared field `goldFaucetId`. -/
def storeGoldFaucetIdPublicPage (hex : String) (prev : TestState) : TestState :=
  { prev with extraProps := setProp "goldFaucetIdHex" hex prev.extraProps }

/-- Public fill page: `{ ...prev, silverFaucetIdHex: silverFaucetIdHex }`. -/
def storeSilverFaucetIdPublicPage (hex : String) (prev : TestState) : TestState :=
  { prev with extraProps := setProp "silverFaucetIdHex" hex prev.extraProps }

/-- Public fill page: `{ ...prev, makerIdHex: makerIdHex }`. -/
def storeMakerIdPublicPage (hex : String) (prev : TestState) : TestState :=
  { prev with extraProps := setProp "makerIdHex" hex prev.extraProps }

/-- Public fill page: `{ ...prev, takerIdHex: takerIdHex }`. -/
def storeTakerIdPublicPage (hex : String) (prev : TestState) : TestState :=
  { prev with extraProps := setProp "takerIdHex" hex prev.extraProps }

/-- Both fill pages: `setState((prev) => ({ ...prev, swappNoteId }))`. -/
def storeSwappNoteId (hex : String) (prev : TestState) : TestState :=
  { prev with swappNoteId := some hex }

/-- Private fill page, phase 2:
`setState((prev) => ({ ...prev, goldFaucetId: goldFaucetIdHex }))`. -/
def storeGoldFaucetIdPrivatePage (hex : String) (prev : TestState) : TestState :=
  { prev with goldFaucetId := some hex }

/-- Private fill page: `{ ...prev, silverFaucetId: silverFaucetIdHex }`. -/
def storeSilverFaucetIdPrivatePage (hex : String) (prev : TestState) : TestState :=
  { prev with silverFaucetId := some hex }

/-- Private fill page: `{ ...prev, makerId: makerIdHex }`. -/
def storeMakerIdPrivatePage (hex : String) (prev : TestState) : TestState :=
  { prev with makerId := some hex }

/-- Private fill page: `{ ...prev, takerId: takerIdHex }`. -/
def storeTakerIdPrivatePage (hex : String) (prev : TestState) : TestState :=
  { prev with takerId := some hex }

/-! ## Theorems for claims C1, C2, C3 -/

/-- Claim C1: with offered = requested = 1000 and fill = 250 the computed
`takerReceives` is 250 and both leftovers are 750; and for every fill amount
F with 0 < F ≤ requested, `takerReceives + leftoverOffered = offered` and
`F + leftoverRequested = requested` hold exactly over the integers. -/
theorem fill_calculation_identities :
    takerReceives FILL_AMOUNT OFFERED_AMOUNT REQUESTED_AMOUNT = 250 ∧
    leftoverOffered FILL_AMOUNT OFFERED_AMOUNT REQUESTED_AMOUNT = 750 ∧
    leftoverRequested FILL_AMOUNT REQUESTED_AMOUNT = 750 ∧
    ∀ F : Int, 0 < F → F ≤ REQUESTED_AMOUNT →
      takerReceives F OFFERED_AMOUNT REQUESTED_AMOUNT +
          leftoverOffered F OFFERED_AMOUNT REQUESTED_AMOUNT = OFFERED_AMOUNT ∧
        F + leftoverRequested F REQUESTED_AMOUNT = REQUESTED_AMOUNT := by
  refine ⟨by decide, by decide, by decide, ?_⟩
  intro F h1 h2
  unfold leftoverOffered leftoverRequested
  constructor <;> ring

/-- Witness for C1: the concrete 250-unit fill satisfies the hypotheses and
the conserved-total identities. -/
theorem fill_calculation_identities_witness :
    (0 : Int) < 250 ∧ (250 : Int) ≤ REQUESTED_AMOUNT ∧
      (takerReceives 250 OFFERED_AMOUNT REQUESTED_AMOUNT +
          leftoverOffered 250 OFFERED_AMOUNT REQUESTED_AMOUNT = OFFERED_AMOUNT ∧
        (250 : Int) + leftoverRequested 250 REQUESTED_AMOUNT = REQUESTED_AMOUNT) :=
  ⟨by decide, by decide,
    fill_calculation_identities.2.2.2 250 (by decide) (by decide)⟩

/-- The bitwise payload computation of `buildSwapTag`, characterised
arithmetically: top byte of the offered prefix times 256 plus top byte of
the requested prefix. -/
theorem swapTag_payload_arith (x y : Nat) :
    ((((x >>> 56) &&& 255) <<< 8) ||| ((y >>> 56) &&& 255)) =
      x / 2 ^ 56 % 2 ^ 8 * 2 ^ 8 + y / 2 ^ 56 % 2 ^ 8 := by
  have h255 : (255 : Nat) = 2 ^ 8 - 1 := by norm_num
  rw [h255, Nat.and_pow_two_sub_one_eq_mod, Nat.and_pow_two_sub_one_eq_mod,
    Nat.shiftRight_eq_div_pow, Nat.shiftRight_eq_div_pow, Nat.shiftLeft_eq]
  have hb : y / 2 ^ 56 % 2 ^ 8 < 2 ^ 8 := Nat.mod_lt _ (by norm_num)
  rw [Nat.mul_comm (x / 2 ^ 56 % 2 ^ 8) (2 ^ 8)]
  exact (Nat.mul_add_lt_is_or hb _).symm

/-- Claim C2: the payload of `buildSwapTag` is the top byte of the offered
faucet prefix shifted into the high 8 bits, or-ed with the top byte of the
requested faucet prefix; it is below 2^16; and the tag is a deterministic
function of note type and asset pair, so the creation-time tag equals the
fill-time recomputation on both pages. -/
theorem buildSwapTag_payload_deterministic (nt : NoteType) (g s : AccountId) :
    (buildSwapTag nt g s).tagPayload =
        g.prefixVal / 2 ^ 56 % 2 ^ 8 * 2 ^ 8 + s.prefixVal / 2 ^ 56 % 2 ^ 8 ∧
      (buildSwapTag nt g s).tagPayload < 2 ^ 16 ∧
      swappTagPublicPage g s = leftoverSwappTagPublicPage g s ∧
      swappTagPrivatePage g s = leftoverSwappTagPrivatePage g s := by
  have hpay : (buildSwapTag nt g s).tagPayload =
      g.prefixVal / 2 ^ 56 % 2 ^ 8 * 2 ^ 8 + s.prefixVal / 2 ^ 56 % 2 ^ 8 := by
    cases nt <;>
      simpa [buildSwapTag, NoteTag.forPublicUseCase, NoteTag.forLocalUseCase] using
        swapTag_payload_arith g.prefixVal s.prefixVal
  refine ⟨hpay, ?_, rfl, rfl⟩
  rw [hpay]
  have h1 : g.prefixVal / 2 ^ 56 % 2 ^ 8 < 2 ^ 8 := Nat.mod_lt _ (by norm_num)
  have h2 : s.prefixVal / 2 ^ 56 % 2 ^ 8 < 2 ^ 8 := Nat.mod_lt _ (by norm_num)
  simp only [show (2 : Nat) ^ 8 = 256 by norm_num,
    show (2 : Nat) ^ 16 = 65536 by norm_num] at *
  omega

/-- Claim C3: the public page builds exactly 14 felts in the fixed layout
(requested amount, 0, requested faucet suffix, requested faucet prefix,
swapp tag, p2id tag, 0, 0, swap count 0, expiration block 0, 0, 0, creator
prefix, creator suffix), and the private page builds the same 14 slots plus
the output-note-type flag at index 14, 15 felts total. -/
theorem noteInputsArray_layout (ra rs rp st pt cp cs : Nat) :
    (noteInputsArray ra rs rp st pt cp cs).length = 14 ∧
    (noteInputsArray ra rs rp st pt cp cs).getD 0 99 = ra ∧
    (noteInputsArray ra rs rp st pt cp cs).getD 1 99 = 0 ∧
    (noteInputsArray ra rs rp st pt cp cs).getD 2 99 = rs ∧
    (noteInputsArray ra rs rp st pt cp cs).getD 3 99 = rp ∧
    (noteInputsArray ra rs rp st pt cp cs).getD 4 99 = st ∧
    (noteInputsArray ra rs rp st pt cp cs).getD 5 99 = pt ∧
    (noteInputsArray ra rs rp st pt cp cs).getD 6 99 = 0 ∧
    (noteInputsArray ra rs rp st pt cp cs).getD 7 99 = 0 ∧
    (noteInputsArray ra rs rp st pt cp cs).getD 8 99 = 0 ∧
    (noteInputsArray ra rs rp st pt cp cs).getD 9 99 = 0 ∧
    (noteInputsArray ra rs rp st pt cp cs).getD 10 99 = 0 ∧
    (noteInputsArray ra rs rp st pt cp cs).getD 11 99 = 0 ∧
    (noteInputsArray ra rs rp st pt cp cs).getD 12 99 = cp ∧
    (noteInputsArray ra rs rp st pt cp cs).getD 13 99 = cs ∧
    (noteInputsArrayPrivate ra rs rp st pt cp cs).length = 15 ∧
    noteInputsArrayPrivate ra rs rp st pt cp cs =
      noteInputsArray ra rs rp st pt cp cs ++ [NOTE_TYPE_PRIVATE] ∧
    (noteInputsArrayPrivate ra rs rp st pt cp cs).getD 14 99 = NOTE_TYPE_PRIVATE := by
  and_intros <;> rfl

/-- Every two-digit-range input renders under `pad2` as exactly two
characters (this covers hours, minutes and seconds). -/
theorem pad2_length : ∀ n, n < 100 → (pad2 n).length = 2 := by
  decide

/-- Claim C7: each `log` call appends exactly one line — an 8-character
`HH:MM:SS` timestamp in square brackets, a space, then the message — and
preserves all previously accumulated lines unchanged and in order, so the
logs list only grows; all other state fields are untouched. -/
theorem log_appends_one_timestamped_line (t : TimeOfDay) (msg : String)
    (prev : TestState) (hh : t.hour < 24) (hm : t.minute < 60) (hs : t.second < 60) :
    (log t msg prev).logs = prev.logs ++ [logLine t msg] ∧
      logLine t msg = "[" ++ timestampHHMMSS t ++ "] " ++ msg ∧
      (timestampHHMMSS t).length = 8 ∧
      prev.logs <+: (log t msg prev).logs ∧
      (log t msg prev).logs.length = prev.logs.length + 1 ∧
      (∀ i, i < prev.logs.length →
        (log t msg prev).logs.getD i "" = prev.logs.getD i "") ∧
      (log t msg prev).phase = prev.phase ∧
      (log t msg prev).goldFaucetId = prev.goldFaucetId ∧
      (log t msg prev).swappNoteId = prev.swappNoteId := by
  refine ⟨rfl, rfl, ?_, ⟨[logLine t msg], rfl⟩, by simp [log], ?_, rfl, rfl, rfl⟩
  · have h1 := pad2_length t.hour (by omega)
    have h2 := pad2_length t.minute (by omega)
    have h3 := pad2_length t.second (by omega)
    have hc : (":" : String).length = 1 := rfl
    simp [timestampHHMMSS, String.length_append, h1, h2, h3, hc]
  · intro i hi
    simp only [log, List.getD]
    rw [List.get?_append hi]

/-- Witness for C7: the timestamp rendered at 12:34:56 is 8 characters. -/
theorem log_appends_one_timestamped_line_witness :
    (timestampHHMMSS ⟨12, 34, 56⟩).length = 8 :=
  (log_appends_one_timestamped_line ⟨12, 34, 56⟩ "hello" idleTestState
    (by decide) (by decide) (by decide)).2.2.1

/-- Claim C5 (code evaluation at the failing input): `runTest` on the public
fill page does reset the whole state, but then stores the gold faucet, the
silver faucet, the maker and the taker ids under the undeclared keys
`goldFaucetIdHex`, `silverFaucetIdHex`, `makerIdHex` and `takerIdHex`,
leaving the declared `TestState` fields `goldFaucetId`, `silverFaucetId`,
`makerId` and `takerId` null — while the private fill page stores the same
ids in the declared fields, and both pages store `swappNoteId` correctly. -/
theorem public_page_account_ids_stored_under_hex_keys :
    runTestReset idleTestState = initTestState ∧
    (storeGoldFaucetIdPublicPage "0xabc123" initTestState).goldFaucetId = none ∧
    getProp "goldFaucetIdHex"
      (storeGoldFaucetIdPublicPage "0xabc123" initTestState).extraProps =
        some "0xabc123" ∧
    (storeSilverFaucetIdPublicPage "0xdef" initTestState).silverFaucetId = none ∧
    (storeMakerIdPublicPage "0x11" initTestState).makerId = none ∧
    (storeTakerIdPublicPage "0x22" initTestState).takerId = none ∧
    (storeGoldFaucetIdPrivatePage "0xabc123" initTestState).goldFaucetId =
      some "0xabc123" ∧
    (storeMakerIdPrivatePage "0x11" initTestState).makerId = some "0x11" ∧
    (storeSwappNoteId "0x33" initTestState).swappNoteId = some "0x33" ∧
    (storeGoldFaucetIdPublicPage "0xabc123" initTestState).phase =
      initTestState.phase ∧
    (storeGoldFaucetIdPublicPage "0xabc123" initTestState).logs =
      initTestState.logs := by
  decide

/-! ## The wait-for-consumability polling loop (public fill page, phase 5)

Source:
```
let swappConsumableForTaker = false;
for (let i = 0; i < 5; i++) {
  await client.syncState();
  const notesForTaker = await client.getConsumableNotes(toAccountId(takerIdHex));
  if (notesForTaker.some((n) => n.inputNoteRecord().id().toString() === swappNoteId)) {
    swappConsumableForTaker = true;
    log(`  SWAPP consumable by taker after i+1 poll(s)`);
    break;
  }
  log(`  Poll i+1: not yet consumable; waiting 3s...`);
  await new Promise((r) => setTimeout(r, 3000));
}
if (!swappConsumableForTaker) {
  log("  WARNING: ...; will try authenticated input anyway");
}
```
The environment is abstracted as `consumable i`: whether the SWAPP note id
appears among the taker's consumable notes at the i-th poll (0-based). -/

def SLEEP_MS : Nat := 3000

def MAX_POLLS : Nat := 5

structure PollOutcome where
  found : Bool
  attempts : Nat
  sleeps : Nat
  deriving DecidableEq

/-- The `for` loop, polling from attempt `i` with `fuel` iterations left:
each iteration performs one `getConsumableNotes` check and either breaks
with the flag set, or logs and sleeps `SLEEP_MS` before the next turn. -/
def pollFrom (consumable : Nat → Bool) (i fuel : Nat) : PollOutcome :=
  match fuel with
  | 0 => ⟨false, 0, 0⟩
  | fuel + 1 =>
    if consumable i then ⟨true, 1, 0⟩
    else
      let r := pollFrom consumable (i + 1) fuel
      ⟨r.found, r.attempts + 1, r.sleeps + 1⟩

/-- The whole wait: at most `MAX_POLLS` turns starting from attempt 0. -/
def waitForSwappConsumable (consumable : Nat → Bool) : PollOutcome :=
  pollFrom consumable 0 MAX_POLLS

/-- `if (!swappConsumableForTaker) log("  WARNING: ...")` — the flow then
continues; it neither retries further nor aborts. -/
def pollWarningLogged (consumable : Nat → Bool) : Bool :=
  !(waitForSwappConsumable consumable).found

theorem pollFrom_attempts_le (consumable : Nat → Bool) (i fuel : Nat) :
    (pollFrom consumable i fuel).attempts ≤ fuel := by
  induction fuel generalizing i with
  | zero => simp [pollFrom]
  | succ n ih =>
    by_cases h : consumable i
    · simp [pollFrom, h]
    · simpa [pollFrom, h] using ih (i + 1)

theorem pollFrom_found_at (consumable : Nat → Bool) (k : Nat) :
    ∀ i fuel, k < fuel → consumable (i + k) = true →
      (∀ j, j < k → consumable (i + j) = false) →
      pollFrom consumable i fuel = ⟨true, k + 1, k⟩ := by
  induction k with
  | zero =>
    intro i fuel hk hc _
    match fuel, hk with
    | fuel + 1, _ => simpa [pollFrom] using hc
  | succ k ih =>
    intro i fuel hk hc hprev
    match fuel, hk with
    | fuel + 1, hk =>
      have h0 : consumable i = false := by simpa using hprev 0 (Nat.succ_pos k)
      have hrec := ih (i + 1) fuel (by omega)
        (by simpa [Nat.add_assoc, Nat.add_comm 1 k] using hc)
        (fun j hj => by
          have := hprev (j + 1) (by omega)
          simpa [Nat.add_assoc, Nat.add_comm 1 j] using this)
      simp [pollFrom, h0, hrec]

theorem pollFrom_never_found (consumable : Nat → Bool) :
    ∀ fuel i, (∀ j, j < fuel → consumable (i + j) = false) →
      pollFrom consumable i fuel = ⟨false, fuel, fuel⟩ := by
  intro fuel
  induction fuel with
  | zero => intro i _; simp [pollFrom]
  | succ n ih =>
    intro i h
    have h0 : consumable i = false := by simpa using h 0 (Nat.succ_pos n)
    have hrec := ih (i + 1) (fun j hj => by
      have := h (j + 1) (by omega)
      simpa [Nat.add_assoc, Nat.add_comm 1 j] using this)
    simp [pollFrom, h0, hrec]

/-- Claim C6: the consumability wait performs at most 5 polls with a fixed
3000 ms sleep after each unsuccessful one; it stops as soon as the note is
seen (at poll k it has used exactly k+1 attempts), and when the note never
appears in 5 attempts it ends with `found = false` and only logs a warning,
the loop function returning normally rather than retrying or aborting. -/
theorem waitForSwappConsumable_bounded (consumable : Nat → Bool) :
    (waitForSwappConsumable consumable).attempts ≤ 5 ∧
      SLEEP_MS = 3000 ∧ MAX_POLLS = 5 ∧
      (∀ k, k < 5 → consumable k = true → (∀ j, j < k → consumable j = false) →
        waitForSwappConsumable consumable = ⟨true, k + 1, k⟩) ∧
      ((∀ k, k < 5 → consumable k = false) →
        waitForSwappConsumable consumable = ⟨false, 5, 5⟩ ∧
          pollWarningLogged consumable = true) := by
  refine ⟨pollFrom_attempts_le consumable 0 MAX_POLLS, rfl, rfl, ?_, ?_⟩
  · intro k hk hc hprev
    exact pollFrom_found_at consumable k 0 MAX_POLLS hk (by simpa using hc)
      (fun j hj => by simpa using hprev j hj)
  · intro h
    have hr := pollFrom_never_found consumable MAX_POLLS 0
      (fun j hj => by simpa using h j hj)
    constructor
    · exact hr
    · simp [pollWarningLogged, waitForSwappConsumable] at hr ⊢
      simp [hr]

/-- Witness for C6: when the note appears on the third poll the loop stops
after exactly 3 attempts with the flag set. -/
theorem waitForSwappConsumable_bounded_witness :
    waitForSwappConsumable (fun k => decide (k = 2)) = ⟨true, 3, 2⟩ :=
  (waitForSwappConsumable_bounded (fun k => decide (k = 2))).2.2.2.1 2
    (by decide) (by decide) (by decide)

/-! ## Exception handling structure of the four flows

An exception is a JavaScript `Error` carrying a message and a stack trace.
A flow body is abstracted by its outcome: it either runs to completion or
raises an error, in both cases with the component state it produced up to
that point (every exception source in the bodies is an awaited SDK call, so
the body outcome carries whatever log/phase updates already happened).
A flow returns its final state together with the exception it propagates to
the caller, if any. Quote punctuation of the original log texts is elided. -/

structure JsError where
  message : String
  stack : String
  deriving DecidableEq

inductive BodyOutcome (σ : Type)
  | ok (s : σ)
  | thrown (e : JsError) (s : σ)

/-- The 60-character banner line of equals signs the pages print around
section headers. -/
def bannerLine : String :=
  String.mk (List.replicate 60 (Char.ofNat 61))

/-- The `catch (error)` block shared verbatim by both fill pages: set phase
`"error"`, log a banner, log `` `${error}` `` (which renders an `Error` as
`Error: message`), and log the stack when it is a non-empty string
(`error.stack` is falsy when empty). -/
def runTestCatchHandler (t : TimeOfDay) (e : JsError) (s : TestState) : TestState :=
  let s := { s with phase := TestPhase.error }
  let s := log t "" s
  let s := log t bannerLine s
  let s := log t "ERROR" s
  let s := log t bannerLine s
  let s := log t ("Error: " ++ e.message) s
  if e.stack = "" then s else log t e.stack s

/-- `runTest` of the public fill page, viewed as its try/catch skeleton. -/
def runTestPublicPage (t : TimeOfDay) (body : BodyOutcome TestState) :
    TestState × Option JsError :=
  match body with
  | .ok s => (s, none)
  | .thrown e s => (runTestCatchHandler t e s, none)

/-- `runTest` of the private fill page: the identical try/catch skeleton. -/
def runTestPrivatePage (t : TimeOfDay) (body : BodyOutcome TestState) :
    TestState × Option JsError :=
  match body with
  | .ok s => (s, none)
  | .thrown e s => (runTestCatchHandler t e s, none)

/-! ### Signing page (`app/signing/page.tsx`) -/

inductive SigningPhase
  | idle
  | signing
  | done
  | error
  deriving DecidableEq

inductive InternalPhase
  | idle
  | running
  | done
  | error
  deriving DecidableEq

structure SigningState where
  logs : List String
  phase : SigningPhase
  internalTestPhase : InternalPhase
  deriving DecidableEq

/-- The signing page `log` callback (same shape as on the fill pages). -/
def signingLog (t : TimeOfDay) (message : String) (prev : SigningState) : SigningState :=
  { prev with logs := prev.logs ++ [logLine t message] }

/-- A body of `runSigningTest` either completes, or raises inside the inner
`try` (the signing test sequence), or raises in the outer `try` but outside
the inner one. -/
inductive SigningBodyOutcome
  | ok (s : SigningState)
  | thrownInner (e : JsError) (s : SigningState)
  | thrownOuter (e : JsError) (s : SigningState)

/-- The inner `catch (signError)` block: log the error message, attempt the
`signingInputs` fallback (itself wrapped in a try/catch that only logs),
then set phase `"error"`. The fallback signature call is abstracted by its
result (`.ok length` or a raised error). -/
def signingInnerHandler (t : TimeOfDay) (e : JsError)
    (fallbackSign : Except JsError Nat) (s : SigningState) : SigningState :=
  let s := signingLog t ("Signing error: Error: " ++ e.message) s
  let s := signingLog t "--- Trying with kind=signingInputs ---" s
  let s :=
    match fallbackSign with
    | .ok len =>
      signingLog t ("Signature length: " ++ toString len ++ " bytes")
        (signingLog t "signingInputs signature received!" s)
    | .error e2 => signingLog t ("signingInputs also failed: Error: " ++ e2.message) s
  { s with phase := SigningPhase.error }

/-- The outer `catch (error)` block: log `Test error: ...` (message only, no
stack) and set phase `"error"`. -/
def signingOuterHandler (t : TimeOfDay) (e : JsError) (s : SigningState) : SigningState :=
  let s := signingLog t ("Test error: Error: " ++ e.message) s
  { s with phase := SigningPhase.error }

/-- `runSigningTest`, viewed as its nested try/catch skeleton. -/
def runSigningTest (t : TimeOfDay) (fallbackSign : Except JsError Nat)
    (body : SigningBodyOutcome) : SigningState × Option JsError :=
  match body with
  | .ok s => (s, none)
  | .thrownInner e s => (signingInnerHandler t e fallbackSign s, none)
  | .thrownOuter e s => (signingOuterHandler t e s, none)

/-! ### Note-lookup (checker) page -/

/-- The checker page state: `{ logs, phase }` with the same phase union as
the fill pages. -/
structure CheckState where
  logs : List String
  phase : TestPhase
  deriving DecidableEq

/-- `runCheck` has no try/catch around its body: a completed body yields its
state, and a raised exception propagates to the caller with the state left
as it was at the throw site (no handler ever sets phase `"error"`). -/
def runCheck (body : BodyOutcome CheckState) : CheckState × Option JsError :=
  match body with
  | .ok s => (s, none)
  | .thrown e s => (s, some e)

/-- The one try/catch inside `runCheck` (around `importNoteFile`):
`catch (error) { console.error(...); throw new Error("fail"); }` — it
converts any import failure into a fresh `Error("fail")` and re-raises it
into the uncaught body. -/
def importNoteFileStep (importResult : Except JsError Unit) (failStack : String)
    (s : CheckState) : BodyOutcome CheckState :=
  match importResult with
  | .ok _ => .ok s
  | .error _ => .thrown ⟨"fail", failStack⟩ s

/-- Claim C4 counterexample: on the note-lookup page, when `importNoteFile`
fails, the re-raised `Error("fail")` is NOT caught by any surrounding
try/catch in `runCheck` — it propagates to the caller and the phase is never
set to `"error"`, refuting the claim that every flow wraps its body in a
single try/catch producing a terminal error phase. -/
theorem runCheck_exception_propagates :
    (runCheck (importNoteFileStep (.error ⟨"import failed", ""⟩) "" ⟨[], .idle⟩)).2 =
        some ⟨"fail", ""⟩ ∧
      (runCheck (importNoteFileStep (.error ⟨"import failed", ""⟩) ""
          ⟨[], .idle⟩)).1.phase ≠ TestPhase.error := by
  decide

/-- Claim C4 as amended: the public and private fill pages wrap their whole
`runTest` bodies in a single try/catch whose handler never re-raises, sets
the terminal `"error"` phase, and logs the message and (when non-empty) the
stack; the signing page catches every body exception (inner or outer
handler), sets phase `"error"`, and logs the message but not the stack; the
note-lookup page's `runCheck` has no such wrapper, so its exceptions
propagate to the caller with the phase untouched. -/
theorem flows_error_handling (t : TimeOfDay) (e : JsError) (s : TestState)
    (ss : SigningState) (cs : CheckState) (fb : Except JsError Nat) :
    (runTestPublicPage t (.thrown e s)).2 = none ∧
      (runTestPublicPage t (.thrown e s)).1.phase = TestPhase.error ∧
      logLine t ("Error: " ++ e.message) ∈ (runTestPublicPage t (.thrown e s)).1.logs ∧
      (e.stack ≠ "" → logLine t e.stack ∈ (runTestPublicPage t (.thrown e s)).1.logs) ∧
      runTestPublicPage t (.ok s) = (s, none) ∧
      runTestPrivatePage t (.thrown e s) = runTestPublicPage t (.thrown e s) ∧
      (runSigningTest t fb (.thrownInner e ss)).2 = none ∧
      (runSigningTest t fb (.thrownInner e ss)).1.phase = SigningPhase.error ∧
      logLine t ("Signing error: Error: " ++ e.message) ∈
        (runSigningTest t fb (.thrownInner e ss)).1.logs ∧
      (runSigningTest t fb (.thrownOuter e ss)).2 = none ∧
      (runSigningTest t fb (.thrownOuter e ss)).1.phase = SigningPhase.error ∧
      logLine t ("Test error: Error: " ++ e.message) ∈
        (runSigningTest t fb (.thrownOuter e ss)).1.logs ∧
      runCheck (.thrown e cs) = (cs, some e) := by
  refine ⟨rfl, ?_, ?_, ?_, rfl, rfl, rfl, ?_, ?_, rfl, rfl, ?_, rfl⟩
  · by_cases h : e.stack = "" <;>
      simp [runTestPublicPage, runTestCatchHandler, log, h]
  · by_cases h : e.stack = "" <;>
      simp [runTestPublicPage, runTestCatchHandler, log, h]
  · intro h
    simp [runTestPublicPage, runTestCatchHandler, log, h]
  · cases fb <;> simp [runSigningTest, signingInnerHandler, signingLog]
  · cases fb <;> simp [runSigningTest, signingInnerHandler, signingLog]
  · simp [runSigningTest, signingOuterHandler, signingLog]

/-- Witness for the amended C4: a concrete thrown error with a non-empty
stack gets its stack logged by the public fill page handler. -/
theorem flows_error_handling_witness :
    logLine ⟨1, 2, 3⟩ "at runTest" ∈
      (runTestPublicPage ⟨1, 2, 3⟩
        (.thrown ⟨"boom", "at runTest"⟩ initTestState)).1.logs :=
  (flows_error_handling ⟨1, 2, 3⟩ ⟨"boom", "at runTest"⟩ initTestState
      ⟨[], .idle, .idle⟩ ⟨[], .idle⟩ (.ok 0)).2.2.2.1 (by decide)

/-! ## The RPC helper module (`lib/rpcClient.ts`) -/

structure RpcClient where
  endpointUrl : String
  deriving DecidableEq

/-- `Endpoint.testnet()` — the fixed testnet endpoint. -/
def Endpoint_testnet : String := "testnet"

/-- `new RpcClient(endpoint)` — a deterministic constructor. -/
def newRpcClient (endpointUrl : String) : RpcClient :=
  ⟨endpointUrl⟩

structure GetRpcClientResult where
  client : RpcClient
  cache : Option RpcClient
  constructedNew : Bool
  deriving DecidableEq

/-- `getRpcClient` against the module-level `let rpcClient: RpcClient | null`
cache: construct-and-store on first call, return the stored instance
afterwards. The Boolean records whether `new RpcClient(...)` ran. -/
def getRpcClient (cache : Option RpcClient) : GetRpcClientResult :=
  match cache with
  | none =>
    let c := newRpcClient Endpoint_testnet
    ⟨c, some c, true⟩
  | some c => ⟨c, some c, false⟩

structure RpcNote where
  noteId : String
  deriving DecidableEq

/-- `getRpcNote`, abstracted over the outcome of the awaited
`rpcClient.getNotesById([noteId])` call: inside the `try`, an empty result
list gives `null`, otherwise the first note is returned; the `catch` logs
and returns `null`. The result is `.ok` exactly when no exception escapes. -/
def getRpcNote (rpcCall : Except JsError (List RpcNote)) :
    Except JsError (Option RpcNote) :=
  match rpcCall with
  | .ok rpcNotes =>
    if rpcNotes.length = 0 then .ok none
    else .ok rpcNotes.head?
  | .error _ => .ok none

/-! ## `arrayBufferToHex` (signing page) -/

/-- The digit alphabet of `Number.prototype.toString(16)`: `0`-`9` then
lowercase `a`-`f`. -/
def hexDigitChar (n : Nat) : Char :=
  if n < 10 then Char.ofNat (48 + n) else Char.ofNat (87 + n)

/-- `b.toString(16).padStart(2, "0")` for a byte `b < 256`: the high nibble
(zero when `b < 16`, exactly the pad character) followed by the low
nibble. -/
def byteToHex (b : Nat) : String :=
  ⟨[hexDigitChar (b / 16), hexDigitChar (b % 16)]⟩

/-- `arrayBufferToHex`: map every byte of the buffer to its two-digit hex
rendering and join with the empty separator. -/
def arrayBufferToHex (bytes : List Nat) : String :=
  String.join (bytes.map byteToHex)

/-- Claim C8: `getRpcNote` never lets an exception escape — the RPC call
raising yields `null` (after logging), an empty result list yields `null`,
and a non-empty list yields its first note. -/
theorem getRpcNote_never_throws (notes : List RpcNote) (n : RpcNote) (e : JsError) :
    getRpcNote (.ok []) = .ok none ∧
      getRpcNote (.error e) = .ok none ∧
      getRpcNote (.ok (n :: notes)) = .ok (some n) ∧
      ∀ rpcCall : Except JsError (List RpcNote), ∃ v, getRpcNote rpcCall = .ok v := by
  refine ⟨rfl, rfl, by simp [getRpcNote], ?_⟩
  intro rpcCall
  match rpcCall with
  | .error e => exact ⟨none, rfl⟩
  | .ok [] => exact ⟨none, rfl⟩
  | .ok (a :: as) => exact ⟨some a, by simp [getRpcNote]⟩

/-- Claim C9: `getRpcClient` constructs a testnet client and stores it on
the first call, and every later call returns exactly the cached instance
without constructing a new client; in particular a second call after the
first returns the client the first call constructed. -/
theorem getRpcClient_idempotent (c : RpcClient) :
    (getRpcClient none).constructedNew = true ∧
      (getRpcClient none).client = newRpcClient Endpoint_testnet ∧
      (getRpcClient none).cache = some (getRpcClient none).client ∧
      getRpcClient (some c) = ⟨c, some c, false⟩ ∧
      (getRpcClient (getRpcClient none).cache).client = (getRpcClient none).client ∧
      (getRpcClient (getRpcClient none).cache).constructedNew = false :=
  ⟨rfl, rfl, rfl, rfl, rfl, rfl⟩

theorem stringJoin_cons (a : String) (l : List String) :
    String.join (a :: l) = a ++ String.join l := by
  simp [String.join_eq]
  rfl

theorem arrayBufferToHex_cons (b : Nat) (bytes : List Nat) :
    arrayBufferToHex (b :: bytes) = byteToHex b ++ arrayBufferToHex bytes := by
  simp [arrayBufferToHex, List.map_cons, stringJoin_cons]

theorem byteToHex_length (b : Nat) : (byteToHex b).length = 2 :=
  rfl

theorem arrayBufferToHex_length (bytes : List Nat) :
    (arrayBufferToHex bytes).length = 2 * bytes.length := by
  induction bytes with
  | nil => rfl
  | cons b bs ih =>
    rw [arrayBufferToHex_cons, String.length_append, byteToHex_length, ih,
      List.length_cons]
    omega

theorem hexDigitChar_inj :
    ∀ a, a < 16 → ∀ b, b < 16 → hexDigitChar a = hexDigitChar b → a = b := by
  decide

theorem byteToHex_inj (a b : Nat) (ha : a < 256) (hb : b < 256)
    (h : byteToHex a = byteToHex b) : a = b := by
  have hd : [hexDigitChar (a / 16), hexDigitChar (a % 16)] =
      [hexDigitChar (b / 16), hexDigitChar (b % 16)] := congrArg String.data h
  simp only [List.cons.injEq, and_true] at hd
  obtain ⟨h1, h2⟩ := hd
  have e1 : a / 16 = b / 16 := hexDigitChar_inj _ (by omega) _ (by omega) h1
  have e2 : a % 16 = b % 16 := hexDigitChar_inj _ (by omega) _ (by omega) h2
  omega

theorem arrayBufferToHex_inj :
    ∀ b1 b2 : List Nat, (∀ x ∈ b1, x < 256) → (∀ x ∈ b2, x < 256) →
      b1.length = b2.length → arrayBufferToHex b1 = arrayBufferToHex b2 →
      b1 = b2 := by
  intro b1
  induction b1 with
  | nil =>
    intro b2 _ _ hlen _
    cases b2 with
    | nil => rfl
    | cons c cs => simp at hlen
  | cons a as ih =>
    intro b2 h1 h2 hlen heq
    cases b2 with
    | nil => simp at hlen
    | cons c cs =>
      rw [arrayBufferToHex_cons, arrayBufferToHex_cons] at heq
      have hdata := congrArg String.data heq
      rw [String.data_append, String.data_append] at hdata
      have hlen2 : (byteToHex a).data.length = (byteToHex c).data.length := rfl
      obtain ⟨hhead, htail⟩ := List.append_inj hdata hlen2
      have hac : a = c :=
        byteToHex_inj a c (h1 a (by simp)) (h2 c (by simp))
          (congrArg String.mk hhead)
      have htl : arrayBufferToHex as = arrayBufferToHex cs :=
        congrArg String.mk htail
      have hrest : as = cs :=
        ih cs (fun x hx => h1 x (by simp [hx])) (fun x hx => h2 x (by simp [hx]))
          (by simpa using hlen) htl
      simp [hac, hrest]

set_option maxRecDepth 8192 in
/-- Claim C10: `arrayBufferToHex` renders each byte in order as two
lowercase zero-padded hexadecimal digits, returns a string of exactly
`2 * n` characters for an `n`-byte buffer (the empty string for an empty
buffer), and is injective on byte sequences of equal length. -/
theorem arrayBufferToHex_spec :
    arrayBufferToHex [] = "" ∧
      (∀ bytes : List Nat, (arrayBufferToHex bytes).length = 2 * bytes.length) ∧
      (∀ b bytes, arrayBufferToHex (b :: bytes) =
        byteToHex b ++ arrayBufferToHex bytes) ∧
      (∀ b, b < 256 → (byteToHex b).length = 2 ∧
        ∀ ch ∈ (byteToHex b).data, ch ∈ "0123456789abcdef".data) ∧
      (∀ b1 b2 : List Nat, (∀ x ∈ b1, x < 256) → (∀ x ∈ b2, x < 256) →
        b1.length = b2.length → arrayBufferToHex b1 = arrayBufferToHex b2 →
        b1 = b2) := by
  refine ⟨rfl, arrayBufferToHex_length, arrayBufferToHex_cons, ?_, arrayBufferToHex_inj⟩
  decide

/-- Witness for C10: the byte 171 renders as the two lowercase digits `ab`,
and the injectivity component applies to the concrete buffer `[171]`. -/
theorem arrayBufferToHex_spec_witness :
    (byteToHex 171).length = 2 ∧ ([171] : List Nat) = [171] :=
  ⟨(arrayBufferToHex_spec.2.2.2.1 171 (by decide)).1,
    arrayBufferToHex_spec.2.2.2.2 [171] [171] (by decide) (by decide) rfl rfl⟩
